import Mathlib

/-!
# University complaint system: formal model and verification

A shallow embedding of the complaint-lifecycle and access-control engine of
the university-complaint-system backend (FastAPI + SQLAlchemy), with proofs
about its behaviour.

Conventions of the embedding:
* SQLAlchemy rows become Lean structures; the database session becomes an
  explicit `Db` value threaded through each operation.
* `datetime` values become `Nat` timestamps; `datetime.utcnow()` becomes an
  explicit `now` argument.
* Nullable columns and optional request fields become `Option`; Python
  truthiness tests such as `if resolution:` are modelled exactly, so `none`
  and `some ""` are both falsy.
* Route handlers return `Except ApiError ...`; an error result models an
  HTTPException raised before any mutation is committed, so the caller's
  database state is unchanged in that case.
* String fields that no verified property reads (human-readable descriptions,
  notification bodies, file paths) are omitted or carried as plain data.
-/

/-- `ComplaintStatus` enum from `app/models/models.py`. -/
inductive ComplaintStatus where
  | submitted
  | under_review
  | in_progress
  | resolved
  | closed
  | escalated
deriving DecidableEq, Repr

/-- Iteration order of `for status in ComplaintStatus` (declaration order). -/
def ComplaintStatus.all : List ComplaintStatus :=
  [.submitted, .under_review, .in_progress, .resolved, .closed, .escalated]

/-- The string `.value` of a `ComplaintStatus` member. -/
def ComplaintStatus.val : ComplaintStatus → String
  | .submitted => "submitted"
  | .under_review => "under_review"
  | .in_progress => "in_progress"
  | .resolved => "resolved"
  | .closed => "closed"
  | .escalated => "escalated"

/-- `ComplaintPriority` enum from `app/models/models.py`. -/
inductive ComplaintPriority where
  | low
  | medium
  | high
  | urgent
deriving DecidableEq, Repr

/-- The string `.value` of a `ComplaintPriority` member. -/
def ComplaintPriority.val : ComplaintPriority → String
  | .low => "low"
  | .medium => "medium"
  | .high => "high"
  | .urgent => "urgent"

/-- `ComplaintCategory` enum from `app/models/models.py`. -/
inductive ComplaintCategory where
  | academic
  | housing
  | harassment
  | financial
  | facilities
  | discrimination
  | safety
  | technology
  | food_services
  | transportation
  | other
deriving DecidableEq, Repr

/-- Iteration order of `for category in ComplaintCategory`. -/
def ComplaintCategory.all : List ComplaintCategory :=
  [.academic, .housing, .harassment, .financial, .facilities, .discrimination,
   .safety, .technology, .food_services, .transportation, .other]

/-- `UserRole` enum from `app/models/models.py`. -/
inductive UserRole where
  | student
  | admin
  | staff
  | super_admin
deriving DecidableEq, Repr

/-- `User` row (`app/models/models.py`), restricted to the columns the
verified operations read.  Authentication data, names and contact fields are
not consulted by any property proved here. -/
structure User where
  id : Nat
  role : UserRole
  university_id : Nat
  department_id : Option Nat := none
deriving DecidableEq, Repr

/-- `Complaint` row (`app/models/models.py`).  The `assigned_to` many-to-many
relation is the set of user ids in the `complaint_assignments` association
table for this complaint.  Timestamps are `Nat`; nullable columns are
`Option`. -/
structure Complaint where
  id : Nat
  title : String
  description : String
  category : ComplaintCategory
  priority : ComplaintPriority
  status : ComplaintStatus
  complainant_id : Nat
  university_id : Nat
  department_id : Option Nat
  is_anonymous : Bool
  incident_date : Option Nat
  location : Option String
  witnesses : Option (List String)
  resolution : Option String
  resolved_at : Option Nat
  resolved_by_id : Option Nat
  created_at : Nat
  due_date : Option Nat
  satisfaction_rating : Option Nat
  assigned_to : List Nat
deriving DecidableEq, Repr

/-- `can_access_complaint`'s inner `check_access` from `app/core/security.py`
(lines 164-190): the per-complaint authorization predicate. -/
def can_access_complaint (current_user : User) (complaint : Complaint) : Bool :=
  -- Super admin can access all
  if current_user.role = UserRole.super_admin then true
  -- Different university check
  else if current_user.university_id ≠ complaint.university_id then false
  -- Complaint owner can access
  else if complaint.complainant_id = current_user.id then true
  -- Assigned users can access
  else if current_user.id ∈ complaint.assigned_to then true
  -- Admin/Staff can access all complaints in their university
  else if current_user.role = UserRole.admin ∨ current_user.role = UserRole.staff then true
  else false

/-- The access rule exactly as the specification states it (spec §4.1,
claim C1), written independently of the source: super_admin always; below
super_admin, tenant isolation is absolute; inside the tenant, the
complainant, the assigned users, and every staff/admin may access. -/
def canAccessSpec (actor : User) (complaint : Complaint) : Bool :=
  if actor.role = UserRole.super_admin then true
  else if actor.university_id ≠ complaint.university_id then false
  else if actor.id = complaint.complainant_id
          ∨ actor.id ∈ complaint.assigned_to
          ∨ actor.role = UserRole.staff ∨ actor.role = UserRole.admin then true
  else false

/-- C1: for every actor and complaint, `can_access_complaint` returns true
iff the actor is super_admin; otherwise false on a tenant mismatch; otherwise
true iff the actor is the complainant, is assigned, or has role staff or
admin; and false in all remaining cases — i.e. the code agrees with the
spec's rule cascade at every input. -/
theorem can_access_complaint_matches_spec (actor : User) (complaint : Complaint) :
    can_access_complaint actor complaint = canAccessSpec actor complaint := by
  unfold can_access_complaint canAccessSpec
  rcases actor with ⟨aid, arole, auni, adept⟩
  cases arole <;> simp [eq_comm]

/-- `Message` row (`app/models/models.py`). -/
structure Message where
  id : Nat
  content : String
  complaint_id : Nat
  sender_id : Nat
  is_internal : Bool
  created_at : Nat
deriving DecidableEq, Repr

/-- `Activity` audit row (`app/models/models.py`); the human-readable
`description` string is omitted, no verified property reads it. -/
structure Activity where
  complaint_id : Nat
  user_id : Nat
  action : String
  old_value : Option String
  new_value : Option String
deriving DecidableEq, Repr

/-- `Notification` row (`app/models/models.py`). -/
structure Notification where
  id : Nat
  user_id : Nat
  complaint_id : Option Nat
  is_read : Bool
deriving DecidableEq, Repr

/-- `Attachment` row (`app/models/models.py`), restricted to the columns the
verified operations write. -/
structure Attachment where
  filename : String
  original_filename : String
  file_size : Nat
  complaint_id : Nat
  uploaded_by_id : Option Nat
deriving DecidableEq, Repr

/-- The database session: one list per table touched by the verified
operations. -/
structure Db where
  users : List User
  complaints : List Complaint
  messages : List Message
  activities : List Activity
  notifications : List Notification
  attachments : List Attachment
deriving DecidableEq, Repr

/-- `db.query(Complaint).filter(Complaint.id == id).first()`
(`CRUDBase.get` / `CRUDComplaint` queries in `app/crud/crud.py`). -/
def CRUDComplaint.get (db : Db) (id : Nat) : Option Complaint :=
  db.complaints.find? (fun c => c.id = id)

/-- Committing a mutated complaint row: every row with the same primary key
(unique in a real database) takes the new value. -/
def Db.setComplaint (db : Db) (c : Complaint) : Db :=
  { db with complaints := db.complaints.map (fun x => if x.id = c.id then c else x) }

/-- `CRUDUser.get_admins_by_university` (`app/crud/crud.py` lines 96-99):
users of the university whose role is admin or staff. -/
def CRUDUser.get_admins_by_university (db : Db) (university_id : Nat) : List User :=
  db.users.filter (fun u =>
    u.university_id = university_id ∧ (u.role = UserRole.admin ∨ u.role = UserRole.staff))

/-- `CRUDActivity.log_activity` (`app/crud/crud.py` lines 334-347): append
one audit row. -/
def CRUDActivity.log_activity (db : Db) (complaint_id user_id : Nat) (action : String)
    (old_value new_value : Option String) : Db :=
  { db with activities := db.activities ++
      [{ complaint_id := complaint_id, user_id := user_id, action := action,
         old_value := old_value, new_value := new_value }] }

/-- `NotificationService.create_notification`
(`app/services/notification_service.py` lines 26-60): insert one unread
notification row (the best-effort email hand-off has no database effect). -/
def NotificationService.create_notification (db : Db) (user_id : Nat)
    (complaint_id : Option Nat) : Db :=
  { db with notifications := db.notifications ++
      [{ id := db.notifications.length + 1, user_id := user_id,
         complaint_id := complaint_id, is_read := false }] }

/-- Request body `ComplaintCreate` (`app/schemas/schemas.py`). -/
structure ComplaintCreate where
  title : String
  description : String
  category : ComplaintCategory
  priority : ComplaintPriority
  is_anonymous : Bool
  incident_date : Option Nat
  location : Option String
  witnesses : Option (List String)
  department_id : Option Nat
  university_id : Nat
deriving DecidableEq, Repr

/-- Request body `ComplaintUpdate` (`app/schemas/schemas.py`); `none` models
an omitted field (pydantic `exclude_unset`). -/
structure ComplaintUpdate where
  title : Option String := none
  description : Option String := none
  category : Option ComplaintCategory := none
  priority : Option ComplaintPriority := none
  status : Option ComplaintStatus := none
  department_id : Option Nat := none
  incident_date : Option Nat := none
  location : Option String := none
  witnesses : Option (List String) := none
  resolution : Option String := none
  assigned_to_ids : Option (List Nat) := none
deriving DecidableEq, Repr

/-- Request body `ComplaintStatusUpdate` (`app/schemas/schemas.py`). -/
structure ComplaintStatusUpdate where
  status : ComplaintStatus
  resolution : Option String := none
deriving DecidableEq, Repr

/-- HTTPException outcomes of the verified routes. -/
inductive ApiError where
  | notFound
  | forbidden
  | badRequest
deriving DecidableEq, Repr

/-- `Except.ok` projection used to observe route results. -/
def okOf {α : Type} : Except ApiError α → Option α
  | .ok a => some a
  | .error _ => none

/-- Whether a route result is a success. -/
def isOk {α : Type} : Except ApiError α → Bool
  | .ok _ => true
  | .error _ => false

/-- `CRUDComplaint.create` (`app/crud/crud.py` lines 135-148): build the row
from the request body; `status` takes its column default `submitted`, the
resolution fields start empty, `new_id` models the autoincrement primary key
and `now` the server-side `created_at` default. -/
def CRUDComplaint.create (db : Db) (obj_in : ComplaintCreate) (complainant_id : Nat)
    (new_id now : Nat) : Db × Complaint :=
  let c : Complaint := {
    id := new_id
    title := obj_in.title
    description := obj_in.description
    category := obj_in.category
    priority := obj_in.priority
    status := ComplaintStatus.submitted
    complainant_id := complainant_id
    university_id := obj_in.university_id
    department_id := obj_in.department_id
    is_anonymous := obj_in.is_anonymous
    incident_date := obj_in.incident_date
    location := obj_in.location
    witnesses := obj_in.witnesses
    resolution := none
    resolved_at := none
    resolved_by_id := none
    created_at := now
    due_date := none
    satisfaction_rating := none
    assigned_to := [] }
  ({ db with complaints := db.complaints ++ [c] }, c)

/-- Route `POST /complaints` (`app/api/v1/routes.py` lines 228-267): reject a
tenant mismatch before any write, otherwise create the complaint, log one
activity row and notify every admin/staff of the user's university. -/
def create_complaint (db : Db) (current_user : User) (complaint_data : ComplaintCreate)
    (new_id now : Nat) : Except ApiError (Db × Complaint) :=
  -- Verify university matches user's university
  if complaint_data.university_id ≠ current_user.university_id then
    .error .forbidden
  else
    let dc := CRUDComplaint.create db complaint_data current_user.id new_id now
    let db2 := CRUDActivity.log_activity dc.1 dc.2.id current_user.id
      "complaint_created" none none
    let admins := CRUDUser.get_admins_by_university db2 current_user.university_id
    let db3 := admins.foldl
      (fun d a => NotificationService.create_notification d a.id (some dc.2.id)) db2
    .ok (db3, dc.2)

/-- `CRUDBase.update` applied to a `ComplaintUpdate`
(`app/crud/crud.py` lines 36-43): `setattr` of each supplied field.
`assigned_to_ids` is not a mapped column of `Complaint`, so setting it has no
database effect and it is dropped here. -/
def applyComplaintUpdate (c : Complaint) (u : ComplaintUpdate) : Complaint :=
  { c with
    title := u.title.getD c.title
    description := u.description.getD c.description
    category := u.category.getD c.category
    priority := u.priority.getD c.priority
    status := u.status.getD c.status
    department_id := match u.department_id with | some d => some d | none => c.department_id
    incident_date := match u.incident_date with | some d => some d | none => c.incident_date
    location := match u.location with | some l => some l | none => c.location
    witnesses := match u.witnesses with | some w => some w | none => c.witnesses
    resolution := match u.resolution with | some r => some r | none => c.resolution }

/-- Route `PUT /complaints/{id}` (`app/api/v1/routes.py` lines 347-410):
access check, then the student restriction (`role == STUDENT and
(complainant_id != user.id or status == RESOLVED)` is rejected), then the
field update, then one activity row per changed field among status and
priority. -/
def update_complaint (db : Db) (current_user : User) (complaint_id : Nat)
    (complaint_update : ComplaintUpdate) : Except ApiError (Db × Complaint) :=
  match CRUDComplaint.get db complaint_id with
  | none => .error .notFound
  | some complaint =>
    if ¬ can_access_complaint current_user complaint then .error .forbidden
    -- Students can only update their own complaints and only if not resolved
    else if current_user.role = UserRole.student ∧
        (complaint.complainant_id ≠ current_user.id ∨
         complaint.status = ComplaintStatus.resolved) then
      .error .forbidden
    else
      let old_status := complaint.status
      let old_priority := complaint.priority
      let updated := applyComplaintUpdate complaint complaint_update
      let db1 := db.setComplaint updated
      let db2 :=
        match complaint_update.status with
        | some s =>
          if old_status ≠ s then
            CRUDActivity.log_activity db1 complaint_id current_user.id
              "status_changed" (some old_status.val) (some s.val)
          else db1
        | none => db1
      let db3 :=
        match complaint_update.priority with
        | some p =>
          if old_priority ≠ p then
            CRUDActivity.log_activity db2 complaint_id current_user.id
              "priority_changed" (some old_priority.val) (some p.val)
          else db2
        | none => db2
      .ok (db3, updated)

/-- `CRUDComplaint.assign_users` (`app/crud/crud.py` lines 212-219): replace
the entire assigned set with the users whose ids are in `user_ids`. -/
def CRUDComplaint.assign_users (db : Db) (complaint_id : Nat) (user_ids : List Nat) :
    Db × Option Complaint :=
  match CRUDComplaint.get db complaint_id with
  | none => (db, none)
  | some complaint =>
    let users := db.users.filter (fun u => u.id ∈ user_ids)
    let c := { complaint with assigned_to := users.map (fun u => u.id) }
    (db.setComplaint c, some c)

/-- Request body `ComplaintAssignment` (`app/schemas/schemas.py`). -/
structure ComplaintAssignment where
  assigned_to_ids : List Nat
deriving DecidableEq, Repr

/-- Route `POST /complaints/{id}/assign` (`app/api/v1/routes.py` lines
412-460); the `get_admin_user` dependency rejects non-admin callers before
the handler runs. -/
def assign_complaint (db : Db) (current_user : User) (complaint_id : Nat)
    (assignment : ComplaintAssignment) : Except ApiError Db :=
  if ¬ (current_user.role = UserRole.admin ∨ current_user.role = UserRole.staff ∨
        current_user.role = UserRole.super_admin) then .error .forbidden
  else
    match CRUDComplaint.get db complaint_id with
    | none => .error .notFound
    | some complaint =>
      if current_user.role ≠ UserRole.super_admin ∧
          complaint.university_id ≠ current_user.university_id then
        .error .forbidden
      else
        let da := CRUDComplaint.assign_users db complaint_id assignment.assigned_to_ids
        let db2 := CRUDActivity.log_activity da.1 complaint_id current_user.id
          "complaint_assigned" none none
        let db3 := assignment.assigned_to_ids.foldl
          (fun d uid => NotificationService.create_notification d uid (some complaint_id)) db2
        .ok db3

/-- `CRUDComplaint.update_status` (`app/crud/crud.py` lines 221-235): set the
status; on entering `resolved` also set `resolved_at` to now, `resolved_by_id`
to the supplied actor, and overwrite `resolution` only when the supplied text
is truthy (`if resolution:` — `none` and `""` are falsy). -/
def CRUDComplaint.update_status (db : Db) (complaint_id : Nat) (status : ComplaintStatus)
    (resolution : Option String) (resolved_by_id : Option Nat) (now : Nat) :
    Db × Option (Complaint × ComplaintStatus) :=
  match CRUDComplaint.get db complaint_id with
  | none => (db, none)
  | some complaint =>
    let old_status := complaint.status
    let c1 := { complaint with status := status }
    let c2 :=
      if status = ComplaintStatus.resolved then
        let cr := { c1 with resolved_at := some now, resolved_by_id := resolved_by_id }
        match resolution with
        | some r => if r ≠ "" then { cr with resolution := some r } else cr
        | none => cr
      else c1
    (db.setComplaint c2, some (c2, old_status))

/-- Route `POST /complaints/{id}/status` (`app/api/v1/routes.py` lines
462-506); admin-gated.  One activity row with old/new values, then exactly
one notification — to the complainant, unconditionally.  The result also
exposes the updated complaint and the prior status for observation. -/
def update_complaint_status (db : Db) (current_user : User) (complaint_id : Nat)
    (status_update : ComplaintStatusUpdate) (now : Nat) :
    Except ApiError (Db × Complaint × ComplaintStatus) :=
  if ¬ (current_user.role = UserRole.admin ∨ current_user.role = UserRole.staff ∨
        current_user.role = UserRole.super_admin) then .error .forbidden
  else
    match CRUDComplaint.update_status db complaint_id status_update.status
        status_update.resolution
        (if status_update.status = ComplaintStatus.resolved
          then some current_user.id else none) now with
    | (_, none) => .error .notFound
    | (db1, some (complaint, old_status)) =>
      -- one activity row, then notify complainant
      .ok (NotificationService.create_notification
        (CRUDActivity.log_activity db1 complaint_id current_user.id
          "status_updated" (some old_status.val) (some status_update.status.val))
        complaint.complainant_id (some complaint_id), complaint, old_status)

/-- Request body `MessageCreate` (`app/schemas/schemas.py`). -/
structure MessageCreate where
  content : String
  is_internal : Bool := false
  complaint_id : Nat
deriving DecidableEq, Repr

/-- `CRUDMessage.create` (`app/crud/crud.py` lines 309-314). -/
def CRUDMessage.create (db : Db) (obj_in : MessageCreate) (sender_id : Nat)
    (new_id now : Nat) : Db × Message :=
  let m : Message := {
    id := new_id
    content := obj_in.content
    complaint_id := obj_in.complaint_id
    sender_id := sender_id
    is_internal := obj_in.is_internal
    created_at := now }
  ({ db with messages := db.messages ++ [m] }, m)

/-- Route `POST /complaints/{id}/messages` (`app/api/v1/routes.py` lines
590-641): access check, create the message, log one activity row, then
notify the complainant and assigned users minus the sender (Python builds
the recipient list through `set`, so order is unspecified; `dedup` fixes one
order with the same underlying set). -/
def create_message (db : Db) (current_user : User) (complaint_id : Nat)
    (message_data : MessageCreate) (new_id now : Nat) : Except ApiError (Db × Message) :=
  match CRUDComplaint.get db complaint_id with
  | none => .error .notFound
  | some complaint =>
    if ¬ can_access_complaint current_user complaint then .error .forbidden
    else
      let dm := CRUDMessage.create db message_data current_user.id new_id now
      let db2 := CRUDActivity.log_activity dm.1 complaint_id current_user.id
        "message_added" none none
      let notify_users :=
        (([complaint.complainant_id] ++ complaint.assigned_to).dedup).filter
          (fun uid => uid ≠ current_user.id)
      let db3 := notify_users.foldl
        (fun d uid => NotificationService.create_notification d uid (some complaint_id)) db2
      .ok (db3, dm.2)

/-- `CRUDMessage.get_by_complaint` (`app/crud/crud.py` lines 316-320):
messages of the complaint, internal ones only when requested, ordered by
creation time. -/
def CRUDMessage.get_by_complaint (db : Db) (complaint_id : Nat)
    (include_internal : Bool) : List Message :=
  let q := db.messages.filter (fun m => m.complaint_id = complaint_id)
  let q := if ¬ include_internal then q.filter (fun m => m.is_internal = false) else q
  q.mergeSort (fun a b => a.created_at ≤ b.created_at)

/-- Route `GET /complaints/{id}/messages` (`app/api/v1/routes.py` lines
643-672): access check, then `include_internal` is forced to false for
callers outside admin/staff/super_admin before querying. -/
def get_messages (db : Db) (current_user : User) (complaint_id : Nat)
    (include_internal : Bool) : Except ApiError (List Message) :=
  match CRUDComplaint.get db complaint_id with
  | none => .error .notFound
  | some complaint =>
    if ¬ can_access_complaint current_user complaint then .error .forbidden
    else
      -- Only admin/staff can see internal messages
      let inc :=
        if include_internal ∧ ¬ (current_user.role = UserRole.admin ∨
            current_user.role = UserRole.staff ∨
            current_user.role = UserRole.super_admin)
        then false else include_internal
      .ok (CRUDMessage.get_by_complaint db complaint_id inc)

/-- Allowed upload extensions (`app/api/v1/routes.py` line 536). -/
def allowed_extensions : List String :=
  ["pdf", "jpg", "jpeg", "png", "doc", "docx", "txt"]

/-- ASCII lower-casing of one character (`str.lower()` on extensions). -/
def char_lower (c : Char) : Char :=
  if 65 ≤ c.toNat ∧ c.toNat ≤ 90 then Char.ofNat (c.toNat + 32) else c

/-- `filename.split('.')[-1].lower()` (`app/api/v1/routes.py` line 537): the
segment after the last dot — the whole name when there is no dot —
lower-cased. -/
def file_extension (filename : String) : String :=
  String.mk ((filename.data.foldl
    (fun acc ch => if ch = '.' then [] else acc ++ [ch]) []).map char_lower)

/-- Route `POST /complaints/{id}/upload` (`app/api/v1/routes.py` lines
510-586): access check, extension allow-list, 10 MiB size cap, then the
attachment row (with `uploaded_by_id` set after creation) and one activity
row.  The physical file store is the out-of-scope collaborator. -/
def upload_file (db : Db) (current_user : User) (complaint_id : Nat)
    (filename : String) (file_size : Nat) : Except ApiError Db :=
  match CRUDComplaint.get db complaint_id with
  | none => .error .notFound
  | some complaint =>
    if ¬ can_access_complaint current_user complaint then .error .forbidden
    else if ¬ (file_extension filename ∈ allowed_extensions) then .error .badRequest
    else if file_size > 10 * 1024 * 1024 then .error .badRequest
    else
      let att : Attachment := {
        filename := filename
        original_filename := filename
        file_size := file_size
        complaint_id := complaint_id
        uploaded_by_id := some current_user.id }
      let db1 := { db with attachments := db.attachments ++ [att] }
      let db2 := CRUDActivity.log_activity db1 complaint_id current_user.id
        "file_uploaded" none none
      .ok db2

/-- The complaint set a statistics query ranges over
(`CRUDComplaint.get_statistics`, `app/crud/crud.py` lines 248-257): the
tenant's complaints, optionally filtered by department (`if department_id:`,
so 0/None are falsy) and creation-date range. -/
def statsFilter (db : Db) (university_id : Nat) (department_id : Option Nat)
    (date_from date_to : Option Nat) : List Complaint :=
  let q := db.complaints.filter (fun c => c.university_id = university_id)
  let q := if department_id.getD 0 ≠ 0
    then q.filter (fun c => c.department_id = department_id) else q
  let q := match date_from with
    | some d => q.filter (fun c => d ≤ c.created_at)
    | none => q
  let q := match date_to with
    | some d => q.filter (fun c => c.created_at ≤ d)
    | none => q
  q

/-- The dictionary returned by `get_statistics` (also schema
`DashboardStats` in `app/schemas/schemas.py`, without the trend list). -/
structure DashboardStats where
  total_complaints : Nat
  pending_complaints : Nat
  resolved_complaints : Nat
  overdue_complaints : Nat
  average_resolution_time : ℚ
  satisfaction_score : ℚ
  complaints_by_category : List (ComplaintCategory × Nat)
  complaints_by_status : List (ComplaintStatus × Nat)
deriving DecidableEq, Repr

/-- `CRUDComplaint.get_statistics` (`app/crud/crud.py` lines 246-302).
Counts, averages guarded against the empty case, and zero-filled breakdown
maps built by iterating every enum member. -/
def CRUDComplaint.get_statistics (db : Db) (university_id : Nat)
    (department_id : Option Nat) (date_from date_to : Option Nat) (now : Nat) :
    DashboardStats :=
  let complaints := statsFilter db university_id department_id date_from date_to
  let total_complaints := complaints.length
  let resolved_complaints :=
    (complaints.filter (fun c => c.status = ComplaintStatus.resolved)).length
  let pending_complaints :=
    (complaints.filter (fun c => c.status = ComplaintStatus.submitted ∨
      c.status = ComplaintStatus.under_review ∨
      c.status = ComplaintStatus.in_progress)).length
  let overdue_complaints :=
    (complaints.filter (fun c =>
      c.due_date ≠ none ∧ c.due_date.getD 0 < now ∧
      ¬ (c.status = ComplaintStatus.resolved ∨ c.status = ComplaintStatus.closed))).length
  -- Calculate average resolution time (`c.resolved_at and c.created_at`;
  -- `created_at` is a non-null column, hence always truthy)
  let resolved_with_time := complaints.filter (fun c => c.resolved_at.isSome)
  let average_resolution_time : ℚ :=
    if resolved_with_time.length ≠ 0 then
      (resolved_with_time.map (fun c =>
        (((c.resolved_at.getD 0 : ℚ) - (c.created_at : ℚ)) / 3600))).sum
        / resolved_with_time.length
    else 0
  -- Calculate satisfaction score (`if c.satisfaction_rating:` — 0/None falsy)
  let rated_complaints := complaints.filter (fun c => c.satisfaction_rating.getD 0 ≠ 0)
  let satisfaction_score : ℚ :=
    if rated_complaints.length ≠ 0 then
      ((rated_complaints.map (fun c => (c.satisfaction_rating.getD 0 : ℚ))).sum)
        / rated_complaints.length
    else 0
  { total_complaints := total_complaints
    pending_complaints := pending_complaints
    resolved_complaints := resolved_complaints
    overdue_complaints := overdue_complaints
    average_resolution_time := average_resolution_time
    satisfaction_score := satisfaction_score
    complaints_by_category := ComplaintCategory.all.map (fun cat =>
      (cat, (complaints.filter (fun c => c.category = cat)).length))
    complaints_by_status := ComplaintStatus.all.map (fun s =>
      (s, (complaints.filter (fun c => c.status = s)).length)) }

/-- Replace the first element satisfying `p` by its image under `f`: the ORM
mutates the single row returned by `.first()` and leaves the rest alone. -/
def markFirst {α : Type} (p : α → Bool) (f : α → α) : List α → List α
  | [] => []
  | x :: xs => if p x then f x :: xs else x :: markFirst p f xs

/-- `CRUDNotification.mark_as_read` (`app/crud/crud.py` lines 378-386): find
the notification by id AND owner; only when found, set its `is_read` flag. -/
def CRUDNotification.mark_as_read (db : Db) (notification_id user_id : Nat) :
    Db × Option Notification :=
  match db.notifications.find?
      (fun n => n.id = notification_id ∧ n.user_id = user_id) with
  | none => (db, none)
  | some n =>
    let upd := markFirst
      (fun m => m.id = notification_id ∧ m.user_id = user_id)
      (fun m => { m with is_read := true }) db.notifications
    ({ db with notifications := upd }, some { n with is_read := true })

/-- Route `POST /notifications/{id}/read` (`app/api/v1/routes.py` lines
721-737): not-found when `mark_as_read` matched nothing. -/
def mark_notification_read (db : Db) (current_user : User) (notification_id : Nat) :
    Except ApiError Db :=
  match CRUDNotification.mark_as_read db notification_id current_user.id with
  | (_, none) => .error .notFound
  | (db1, some _) => .ok db1

/-! ## Helper lemmas about the embedding -/

/-- A found complaint is a row of the table and carries the queried id. -/
theorem CRUDComplaint.get_mem {db : Db} {cid : Nat} {c : Complaint}
    (h : CRUDComplaint.get db cid = some c) : c ∈ db.complaints ∧ c.id = cid := by
  unfold CRUDComplaint.get at h
  refine ⟨List.mem_of_find?_eq_some h, ?_⟩
  have := List.find?_some h
  simpa using this

/-- After committing a row whose key matches the found row, the same query
returns the new row. -/
theorem find?_map_replace (l : List Complaint) (cid : Nat) (c c2 : Complaint)
    (hf : l.find? (fun x => x.id = cid) = some c) (hid : c2.id = cid) :
    (l.map (fun x => if x.id = c2.id then c2 else x)).find? (fun x => x.id = cid)
      = some c2 := by
  induction l with
  | nil => simp at hf
  | cons a l ih =>
    by_cases ha : a.id = cid
    · simp [List.find?, ha, hid]
    · rw [List.find?_cons_of_neg _ (by simpa using ha)] at hf
      simp only [List.map_cons]
      have hne : ¬ a.id = c2.id := by rw [hid]; exact ha
      rw [if_neg hne, List.find?_cons_of_neg _ (by simpa using ha), ih hf]

/-- Replacing a row by key twice is the same as replacing it once. -/
theorem map_replace_idem (l : List Complaint) (c : Complaint) :
    ((l.map (fun x => if x.id = c.id then c else x)).map
        (fun x => if x.id = c.id then c else x)) =
      l.map (fun x => if x.id = c.id then c else x) := by
  rw [List.map_map]
  apply List.map_congr_left
  intro x _
  by_cases h : x.id = c.id <;> simp [Function.comp, h]

/-- Dispatching notifications touches only the notifications table. -/
theorem foldl_notify_fields {α : Type} (g : α → Nat) (cid : Option Nat)
    (l : List α) (d : Db) :
    (l.foldl (fun d a => NotificationService.create_notification d (g a) cid) d).users
        = d.users ∧
    (l.foldl (fun d a => NotificationService.create_notification d (g a) cid) d).complaints
        = d.complaints ∧
    (l.foldl (fun d a => NotificationService.create_notification d (g a) cid) d).messages
        = d.messages ∧
    (l.foldl (fun d a => NotificationService.create_notification d (g a) cid) d).activities
        = d.activities ∧
    (l.foldl (fun d a => NotificationService.create_notification d (g a) cid) d).attachments
        = d.attachments := by
  induction l generalizing d with
  | nil => exact ⟨rfl, rfl, rfl, rfl, rfl⟩
  | cons a l ih =>
    simpa [NotificationService.create_notification] using
      ih (NotificationService.create_notification d (g a) cid)

/-- Committing a mutated row that keeps the tenant columns of the row it
replaces keeps the tenant columns of the whole table (primary keys are
unique). -/
theorem setComplaint_tenant_eq (db : Db) (complaint c2 : Complaint)
    (hmem : complaint ∈ db.complaints)
    (hnod : (db.complaints.map (fun c => c.id)).Nodup)
    (hid : c2.id = complaint.id)
    (huni : c2.university_id = complaint.university_id)
    (hcom : c2.complainant_id = complaint.complainant_id) :
    (db.setComplaint c2).complaints.map
        (fun c => (c.id, c.university_id, c.complainant_id)) =
      db.complaints.map (fun c => (c.id, c.university_id, c.complainant_id)) := by
  unfold Db.setComplaint
  simp only [List.map_map]
  apply List.map_congr_left
  intro x hx
  by_cases h : x.id = c2.id
  · have hxc : x = complaint :=
      List.inj_on_of_nodup_map hnod hx hmem (by rw [h, hid])
    subst hxc
    simp only [Function.comp_apply, if_pos h]
    rw [hid, huni, hcom]
  · simp only [Function.comp_apply, if_neg h]

/-! ## Concrete scenario values -/

/-- The empty database. -/
def db0 : Db := ⟨[], [], [], [], [], []⟩

/-- A baseline complaint row for concrete scenarios: complaint 1, filed by
user 1 of university 1, freshly submitted. -/
def complaint0 : Complaint where
  id := 1
  title := "t"
  description := "d"
  category := ComplaintCategory.academic
  priority := ComplaintPriority.medium
  status := ComplaintStatus.submitted
  complainant_id := 1
  university_id := 1
  department_id := none
  is_anonymous := false
  incident_date := none
  location := none
  witnesses := none
  resolution := none
  resolved_at := none
  resolved_by_id := none
  created_at := 0
  due_date := none
  satisfaction_rating := none
  assigned_to := []

/-- A baseline creation request for university 1. -/
def complaintCreate0 : ComplaintCreate where
  title := "t"
  description := "d"
  category := ComplaintCategory.academic
  priority := ComplaintPriority.medium
  is_anonymous := false
  incident_date := none
  location := none
  witnesses := none
  department_id := none
  university_id := 1

/-! ## C2: tenant invariant of complaint creation -/

/-- C2: creation rejects a request whose `university_id` differs from the
acting user's (error before any write); a created complaint carries the
acting user's university and id as complainant, so
`university_id = complainant.university_id` holds at creation; and the
subsequent operations — field update, status update, assignment — never
change `id`, `university_id` or `complainant_id` of any row (tables with
unique primary keys), so the equality persists. -/
theorem create_complaint_tenant_invariant
    (db : Db) (current_user : User) (complaint_data : ComplaintCreate)
    (new_id now : Nat) :
    (complaint_data.university_id ≠ current_user.university_id →
      create_complaint db current_user complaint_data new_id now
        = .error .forbidden) ∧
    (∀ db' c, create_complaint db current_user complaint_data new_id now
        = .ok (db', c) →
      c.university_id = current_user.university_id ∧
      c.complainant_id = current_user.id) ∧
    (∀ (c : Complaint) (u : ComplaintUpdate),
      (applyComplaintUpdate c u).id = c.id ∧
      (applyComplaintUpdate c u).university_id = c.university_id ∧
      (applyComplaintUpdate c u).complainant_id = c.complainant_id) ∧
    (∀ (d : Db) cid st res rbid n,
      (d.complaints.map (fun c => c.id)).Nodup →
      ((CRUDComplaint.update_status d cid st res rbid n).1).complaints.map
          (fun c => (c.id, c.university_id, c.complainant_id)) =
        d.complaints.map (fun c => (c.id, c.university_id, c.complainant_id))) ∧
    (∀ (d : Db) cid ids,
      (d.complaints.map (fun c => c.id)).Nodup →
      ((CRUDComplaint.assign_users d cid ids).1).complaints.map
          (fun c => (c.id, c.university_id, c.complainant_id)) =
        d.complaints.map (fun c => (c.id, c.university_id, c.complainant_id))) := by
  refine ⟨?_, ?_, ?_, ?_, ?_⟩
  · intro hne
    unfold create_complaint
    rw [if_pos hne]
  · intro db' c hok
    unfold create_complaint at hok
    by_cases hne : complaint_data.university_id ≠ current_user.university_id
    · rw [if_pos hne] at hok; cases hok
    · rw [if_neg hne] at hok
      simp only [Except.ok.injEq, Prod.mk.injEq] at hok
      obtain ⟨-, hc⟩ := hok
      subst hc
      push_neg at hne
      exact ⟨hne, rfl⟩
  · intro c u
    unfold applyComplaintUpdate
    exact ⟨rfl, rfl, rfl⟩
  · intro d cid st res rbid n hnod
    unfold CRUDComplaint.update_status
    cases hget : CRUDComplaint.get d cid with
    | none => rfl
    | some complaint =>
      obtain ⟨hmem, hid⟩ := CRUDComplaint.get_mem hget
      simp only
      apply setComplaint_tenant_eq d complaint _ hmem hnod
      · by_cases hst : st = ComplaintStatus.resolved <;>
          cases res <;> simp [hst] <;> split <;> rfl
      · by_cases hst : st = ComplaintStatus.resolved <;>
          cases res <;> simp [hst] <;> split <;> rfl
      · by_cases hst : st = ComplaintStatus.resolved <;>
          cases res <;> simp [hst] <;> split <;> rfl
  · intro d cid ids hnod
    unfold CRUDComplaint.assign_users
    cases hget : CRUDComplaint.get d cid with
    | none => rfl
    | some complaint =>
      obtain ⟨hmem, hid⟩ := CRUDComplaint.get_mem hget
      simp only
      exact setComplaint_tenant_eq d complaint _ hmem hnod rfl rfl rfl

/-- C2 witness: at a concrete input the mismatch is rejected, and a matching
request creates a complaint for the complainant's own university. -/
theorem create_complaint_tenant_invariant_witness :
    (create_complaint db0 { id := 1, role := UserRole.student, university_id := 1 }
        { complaintCreate0 with university_id := 2 } 1 0
      = .error .forbidden) ∧
    (∀ db' c, create_complaint db0
        { id := 1, role := UserRole.student, university_id := 1 }
        complaintCreate0 1 0 = .ok (db', c) →
      c.university_id = 1 ∧ c.complainant_id = 1) := by
  constructor
  · exact (create_complaint_tenant_invariant db0
      { id := 1, role := UserRole.student, university_id := 1 }
      { complaintCreate0 with university_id := 2 } 1 0).1 (by decide)
  · exact (create_complaint_tenant_invariant db0
      { id := 1, role := UserRole.student, university_id := 1 }
      complaintCreate0 1 0).2.1

/-! ## C3: student update restrictions -/

/-- C3 counterexample: the route's student guard checks only
`status == RESOLVED`, so a student's update of their own complaint in status
`closed` is accepted — the claim says any update of a resolved-or-closed
complaint by a student is rejected. -/
theorem update_complaint_closed_student_accepted :
    isOk (update_complaint
        { db0 with complaints := [{ complaint0 with status := ComplaintStatus.closed }] }
        { id := 1, role := UserRole.student, university_id := 1 }
        1 { title := some "new" }) = true := by
  decide

/-- C3 (amended: only `resolved` — not `closed` — blocks a student): a
student's update of a resolved complaint is rejected with an authorization
failure (error before any write), a student may update only their own
complaint, a staff/admin/super_admin user with access is accepted, and a
student's update of their own complaint in any non-resolved status
(including `closed`) is accepted. -/
theorem update_complaint_student_restriction
    (db : Db) (current_user : User) (cid : Nat) (u : ComplaintUpdate)
    (complaint : Complaint) (hget : CRUDComplaint.get db cid = some complaint) :
    (current_user.role = UserRole.student →
      complaint.status = ComplaintStatus.resolved →
      update_complaint db current_user cid u = .error .forbidden) ∧
    (current_user.role = UserRole.student →
      complaint.complainant_id ≠ current_user.id →
      update_complaint db current_user cid u = .error .forbidden) ∧
    ((current_user.role = UserRole.staff ∨ current_user.role = UserRole.admin ∨
        current_user.role = UserRole.super_admin) →
      can_access_complaint current_user complaint = true →
      isOk (update_complaint db current_user cid u) = true) ∧
    (current_user.role = UserRole.student →
      complaint.complainant_id = current_user.id →
      complaint.status ≠ ComplaintStatus.resolved →
      can_access_complaint current_user complaint = true →
      isOk (update_complaint db current_user cid u) = true) := by
  unfold update_complaint
  rw [hget]
  refine ⟨?_, ?_, ?_, ?_⟩
  · intro hrole hst
    by_cases hacc : can_access_complaint current_user complaint
    · simp [hacc, hrole, hst]
    · simp [hacc]
  · intro hrole hown
    by_cases hacc : can_access_complaint current_user complaint
    · simp [hacc, hrole, hown]
    · simp [hacc]
  · intro hrole hacc
    have hns : current_user.role ≠ UserRole.student := by
      rcases hrole with h | h | h <;> rw [h] <;> decide
    simp [hacc, hns, isOk]
  · intro hrole hown hst hacc
    simp [hacc, hown, hst, isOk]

/-- C3 witness: concretely, a student's update of their own resolved
complaint is rejected, and a staff user's update of the same complaint is
accepted. -/
theorem update_complaint_student_restriction_witness :
    (update_complaint
        { db0 with complaints := [{ complaint0 with status := ComplaintStatus.resolved }] }
        { id := 1, role := UserRole.student, university_id := 1 }
        1 { title := some "new" } = .error .forbidden) ∧
    (isOk (update_complaint
        { db0 with complaints := [{ complaint0 with status := ComplaintStatus.resolved }] }
        { id := 9, role := UserRole.staff, university_id := 1 }
        1 { title := some "new" }) = true) := by
  have h1 := update_complaint_student_restriction
    { db0 with complaints := [{ complaint0 with status := ComplaintStatus.resolved }] }
    { id := 1, role := UserRole.student, university_id := 1 }
    1 { title := some "new" }
    { complaint0 with status := ComplaintStatus.resolved } (by decide)
  have h2 := update_complaint_student_restriction
    { db0 with complaints := [{ complaint0 with status := ComplaintStatus.resolved }] }
    { id := 9, role := UserRole.staff, university_id := 1 }
    1 { title := some "new" }
    { complaint0 with status := ComplaintStatus.resolved } (by decide)
  exact ⟨h1.1 rfl (by decide), h2.2.2.1 (Or.inl rfl) (by decide)⟩

/-! ## C4: assignment is set replacement -/

/-- C4: `assign_users` on an existing complaint replaces the whole assigned
set with exactly the users of the table whose ids appear in the list;
duplicate input ids collapse (the result for `ids.dedup` is identical);
the empty list clears the set; and applying the same assignment twice gives
exactly the state and result of applying it once. -/
theorem assign_users_set_replacement (db : Db) (cid : Nat) (ids : List Nat)
    (h : (CRUDComplaint.get db cid).isSome = true) :
    ((CRUDComplaint.assign_users db cid ids).2.map (fun c => c.assigned_to) =
      some ((db.users.filter (fun u => u.id ∈ ids)).map (fun u => u.id))) ∧
    ((CRUDComplaint.assign_users db cid []).2.map (fun c => c.assigned_to)
      = some []) ∧
    (CRUDComplaint.assign_users db cid ids.dedup
      = CRUDComplaint.assign_users db cid ids) ∧
    (CRUDComplaint.assign_users (CRUDComplaint.assign_users db cid ids).1 cid ids
      = CRUDComplaint.assign_users db cid ids) := by
  obtain ⟨c, hc⟩ := Option.isSome_iff_exists.mp h
  obtain ⟨hmem, hcid⟩ := CRUDComplaint.get_mem hc
  refine ⟨?_, ?_, ?_, ?_⟩
  · unfold CRUDComplaint.assign_users
    simp [hc]
  · unfold CRUDComplaint.assign_users
    simp [hc]
  · unfold CRUDComplaint.assign_users
    have hfil : db.users.filter (fun u => u.id ∈ ids.dedup)
        = db.users.filter (fun u => u.id ∈ ids) := by
      apply List.filter_congr
      intro u _
      simp [List.mem_dedup]
    simp only [hc, hfil]
  · have hget2 : CRUDComplaint.get
        (db.setComplaint { c with assigned_to :=
          (db.users.filter (fun u => u.id ∈ ids)).map (fun u => u.id) }) cid
        = some { c with assigned_to :=
          (db.users.filter (fun u => u.id ∈ ids)).map (fun u => u.id) } := by
      apply find?_map_replace db.complaints cid c _ hc
      simpa using hcid
    unfold CRUDComplaint.assign_users
    simp only [hc, hget2]
    unfold Db.setComplaint
    simp only [Prod.mk.injEq, Db.mk.injEq, and_true, true_and]
    exact map_replace_idem db.complaints
      { c with assigned_to :=
        (db.users.filter (fun u => u.id ∈ ids)).map (fun u => u.id) }

/-- C4 witness: with users 2, 3, 4 on file, assigning `[2, 2, 3]` to an
existing complaint yields exactly the assigned set of users 2 and 3. -/
theorem assign_users_set_replacement_witness :
    ((CRUDComplaint.assign_users
        { db0 with
          users := [{ id := 2, role := UserRole.staff, university_id := 1 },
                    { id := 3, role := UserRole.staff, university_id := 1 },
                    { id := 4, role := UserRole.staff, university_id := 1 }]
          complaints := [complaint0] }
        1 [2, 2, 3]).2.map (fun c => c.assigned_to)) = some [2, 3] := by
  have h := assign_users_set_replacement
    { db0 with
      users := [{ id := 2, role := UserRole.staff, university_id := 1 },
                { id := 3, role := UserRole.staff, university_id := 1 },
                { id := 4, role := UserRole.staff, university_id := 1 }]
      complaints := [complaint0] }
    1 [2, 2, 3] (by decide)
  exact h.1.trans (by decide)

/-! ## C5: entering `resolved` -/

/-- C5 counterexample: `update_status` guards the resolution write with
Python truthiness (`if resolution:`), so a supplied empty resolution text is
NOT stored — the pre-existing resolution "old" survives, where the claim
says a supplied text is stored. -/
theorem update_status_empty_resolution_not_stored :
    ((CRUDComplaint.update_status
        { db0 with complaints := [{ complaint0 with resolution := some "old" }] }
        1 ComplaintStatus.resolved (some "") (some 9) 100).2.map
      (fun p => p.1.resolution)) = some (some "old") := by
  decide

/-- C5 (amended: a supplied resolution text is stored only when non-empty;
`none` and the empty string both leave the old resolution in place): on an
existing complaint, `update_status` always returns the prior status; moving
to `resolved` stamps `resolved_at := now` and `resolved_by_id` with the
supplied actor (the route passes the acting admin), stores a non-empty
supplied resolution and keeps the old one otherwise; moving to any
non-resolved status changes the status field and nothing else. -/
theorem update_status_resolved_fields
    (db : Db) (cid : Nat) (st : ComplaintStatus) (res : Option String)
    (rbid : Option Nat) (now : Nat) (complaint : Complaint)
    (hget : CRUDComplaint.get db cid = some complaint) :
    ((CRUDComplaint.update_status db cid st res rbid now).2.map (fun p => p.2)
      = some complaint.status) ∧
    (st = ComplaintStatus.resolved →
      ((CRUDComplaint.update_status db cid st res rbid now).2.map
          (fun p => p.1.resolved_at) = some (some now)) ∧
      ((CRUDComplaint.update_status db cid st res rbid now).2.map
          (fun p => p.1.resolved_by_id) = some rbid) ∧
      (∀ r, res = some r → r ≠ "" →
        (CRUDComplaint.update_status db cid st res rbid now).2.map
          (fun p => p.1.resolution) = some (some r)) ∧
      ((res = none ∨ res = some "") →
        (CRUDComplaint.update_status db cid st res rbid now).2.map
          (fun p => p.1.resolution) = some complaint.resolution)) ∧
    (st ≠ ComplaintStatus.resolved →
      (CRUDComplaint.update_status db cid st res rbid now).2.map (fun p => p.1)
        = some { complaint with status := st }) ∧
    (∀ (current_user : User) (su : ComplaintStatusUpdate) (now2 : Nat),
      (current_user.role = UserRole.admin ∨ current_user.role = UserRole.staff ∨
        current_user.role = UserRole.super_admin) →
      su.status = ComplaintStatus.resolved →
      (okOf (update_complaint_status db current_user cid su now2)).map
        (fun t => t.2.1.resolved_by_id) = some (some current_user.id)) := by
  refine ⟨?_, ?_, ?_, ?_⟩
  · unfold CRUDComplaint.update_status
    simp [hget]
  · intro hst
    subst hst
    refine ⟨?_, ?_, ?_, ?_⟩
    · unfold CRUDComplaint.update_status
      cases res with
      | none => simp [hget]
      | some r =>
        by_cases hr : r = "" <;> simp [hget, hr]
    · unfold CRUDComplaint.update_status
      cases res with
      | none => simp [hget]
      | some r =>
        by_cases hr : r = "" <;> simp [hget, hr]
    · intro r hres hr
      subst hres
      unfold CRUDComplaint.update_status
      simp [hget, hr]
    · intro hres
      unfold CRUDComplaint.update_status
      rcases hres with h | h <;> subst h <;> simp [hget]
  · intro hst
    unfold CRUDComplaint.update_status
    simp [hget, hst]
  · intro current_user su now2 hrole hsu
    have hns : ¬ ¬ (current_user.role = UserRole.admin ∨
        current_user.role = UserRole.staff ∨
        current_user.role = UserRole.super_admin) := not_not_intro hrole
    unfold update_complaint_status
    rw [if_neg hns, hsu]
    simp only [if_pos rfl]
    unfold CRUDComplaint.update_status
    cases hres : su.resolution with
    | none => simp [hget, okOf]
    | some r =>
      by_cases hr : r = "" <;> simp [hget, hr, okOf]

/-- C5 witness: resolving complaint 1 with text "fixed" at time 100 returns
prior status `submitted` and stores the text. -/
theorem update_status_resolved_fields_witness :
    ((CRUDComplaint.update_status { db0 with complaints := [complaint0] }
        1 ComplaintStatus.resolved (some "fixed") (some 9) 100).2.map
      (fun p => p.2) = some ComplaintStatus.submitted) ∧
    ((CRUDComplaint.update_status { db0 with complaints := [complaint0] }
        1 ComplaintStatus.resolved (some "fixed") (some 9) 100).2.map
      (fun p => p.1.resolution) = some (some "fixed")) := by
  have h := update_status_resolved_fields { db0 with complaints := [complaint0] }
    1 ComplaintStatus.resolved (some "fixed") (some 9) 100 complaint0 (by decide)
  exact ⟨h.1, (h.2.1 rfl).2.2.1 "fixed" rfl (by decide)⟩

/-! ## C6: status-change notification recipients -/

/-- Shape of a successful `update_status`: the stored row differs from the
found row only in status/resolution bookkeeping, keeping its key and its
complainant. -/
theorem update_status_shape (db : Db) (cid : Nat) (st : ComplaintStatus)
    (res : Option String) (rbid : Option Nat) (now : Nat) (complaint : Complaint)
    (hget : CRUDComplaint.get db cid = some complaint) :
    ∃ c2, CRUDComplaint.update_status db cid st res rbid now
        = (db.setComplaint c2, some (c2, complaint.status)) ∧
      c2.complainant_id = complaint.complainant_id ∧ c2.id = complaint.id := by
  unfold CRUDComplaint.update_status
  by_cases hst : st = ComplaintStatus.resolved
  · subst hst
    cases res with
    | none =>
      refine ⟨{ complaint with status := ComplaintStatus.resolved, resolved_at := some now, resolved_by_id := rbid }, ?_, rfl, rfl⟩
      simp [hget]
    | some r =>
      by_cases hr : r = ""
      · refine ⟨{ complaint with status := ComplaintStatus.resolved, resolved_at := some now, resolved_by_id := rbid }, ?_, rfl, rfl⟩
        simp [hget, hr]
      · refine ⟨{ complaint with status := ComplaintStatus.resolved, resolution := some r, resolved_at := some now, resolved_by_id := rbid }, ?_, rfl, rfl⟩
        simp [hget, hr]
  · refine ⟨{ complaint with status := st }, ?_, rfl, rfl⟩
    simp [hget, hst]

/-- The recipient set claim C6 asserts for a status change, written from the
spec: the complainant when the actor is not the complainant, plus every
assigned user other than the actor. -/
def statusChangeRecipientsSpec (actor : User) (complaint : Complaint) : List Nat :=
  (if actor.id ≠ complaint.complainant_id then [complaint.complainant_id] else []) ++
    complaint.assigned_to.filter (fun uid => uid ≠ actor.id)

/-- C6 counterexample: admin 2 is the complainant of complaint 1 with user 3
assigned; the claim's recipient set is `[3]`, but the status route notifies
exactly `[2]` — the complainant, even though they are the actor, and never
the assigned user. -/
theorem update_complaint_status_recipients_cex :
    (((okOf (update_complaint_status
          { db0 with complaints :=
              [{ complaint0 with complainant_id := 2, assigned_to := [3] }] }
          { id := 2, role := UserRole.admin, university_id := 1 }
          1 { status := ComplaintStatus.in_progress } 50)).map
        (fun t => t.1.notifications.map (fun n => n.user_id))) = some [2]) ∧
    statusChangeRecipientsSpec
        { id := 2, role := UserRole.admin, university_id := 1 }
        { complaint0 with complainant_id := 2, assigned_to := [3] }
      = [3] := by
  constructor
  · decide
  · decide

/-- C6 (amended): every status change through the status route creates
exactly one notification, addressed to the complainant — regardless of
whether the acting user is the complainant, and never to the assigned
users.  (The helper `notify_complaint_status_change` in the notification
service implements the claimed recipient set but is never called by any
route.) -/
theorem update_complaint_status_notifies_complainant
    (db : Db) (current_user : User) (cid : Nat) (su : ComplaintStatusUpdate)
    (now : Nat) (complaint : Complaint)
    (hrole : current_user.role = UserRole.admin ∨ current_user.role = UserRole.staff ∨
      current_user.role = UserRole.super_admin)
    (hget : CRUDComplaint.get db cid = some complaint) :
    (okOf (update_complaint_status db current_user cid su now)).map
      (fun t => t.1.notifications.map (fun n => n.user_id)) =
    some (db.notifications.map (fun n => n.user_id) ++ [complaint.complainant_id]) := by
  obtain ⟨c2, heq, hcompl, -⟩ := update_status_shape db cid su.status su.resolution
    (if su.status = ComplaintStatus.resolved then some current_user.id else none)
    now complaint hget
  unfold update_complaint_status
  rw [if_neg (not_not_intro hrole), heq]
  simp [okOf, CRUDActivity.log_activity, NotificationService.create_notification,
    Db.setComplaint, hcompl]

/-- C6 witness: with no assignees and a distinct admin actor, the route
notifies exactly the complainant once. -/
theorem update_complaint_status_notifies_complainant_witness :
    (okOf (update_complaint_status { db0 with complaints := [complaint0] }
        { id := 9, role := UserRole.admin, university_id := 1 }
        1 { status := ComplaintStatus.under_review } 50)).map
      (fun t => t.1.notifications.map (fun n => n.user_id)) = some [1] := by
  have h := update_complaint_status_notifies_complainant
    { db0 with complaints := [complaint0] }
    { id := 9, role := UserRole.admin, university_id := 1 }
    1 { status := ComplaintStatus.under_review } 50 complaint0
    (Or.inl rfl) (by decide)
  exact h.trans (by decide)

/-! ## C7: activity rows per mutating operation -/

/-- C7 counterexample: one `PUT /complaints/1` changing both status and
priority writes TWO activity rows, where the claim says every mutating
operation produces exactly one. -/
theorem update_complaint_double_activity_cex :
    ((okOf (update_complaint { db0 with complaints := [complaint0] }
        { id := 9, role := UserRole.admin, university_id := 1 } 1
        { status := some ComplaintStatus.in_progress,
          priority := some ComplaintPriority.high })).map
      (fun t => t.1.activities.length)) = some 2 := by
  decide

/-- C7 (amended: the general update route logs one row per changed field
among status and priority — zero rows when neither changes, two when both
change — while each of the other mutating operations logs exactly one row):
creation, assignment, message add and file add append exactly one activity
row with `old_value`/`new_value` null; the status route appends exactly one
row carrying the old and new status; the update route appends exactly the
rows of its changed fields, each carrying old and new values. -/
theorem mutating_operations_activity_rows (db : Db) (current_user : User) :
    (∀ data new_id now db' c,
      create_complaint db current_user data new_id now = .ok (db', c) →
      db'.activities = db.activities ++
        [⟨c.id, current_user.id, "complaint_created", none, none⟩]) ∧
    (∀ cid a db', assign_complaint db current_user cid a = .ok db' →
      db'.activities = db.activities ++
        [⟨cid, current_user.id, "complaint_assigned", none, none⟩]) ∧
    (∀ cid md new_id now db' m,
      create_message db current_user cid md new_id now = .ok (db', m) →
      db'.activities = db.activities ++
        [⟨cid, current_user.id, "message_added", none, none⟩]) ∧
    (∀ cid fn fs db', upload_file db current_user cid fn fs = .ok db' →
      db'.activities = db.activities ++
        [⟨cid, current_user.id, "file_uploaded", none, none⟩]) ∧
    (∀ cid su now complaint db' c os,
      CRUDComplaint.get db cid = some complaint →
      update_complaint_status db current_user cid su now = .ok (db', c, os) →
      db'.activities = db.activities ++
        [⟨cid, current_user.id, "status_updated",
          some complaint.status.val, some su.status.val⟩]) ∧
    (∀ cid u complaint db' c,
      CRUDComplaint.get db cid = some complaint →
      update_complaint db current_user cid u = .ok (db', c) →
      db'.activities = db.activities ++
        (match u.status with
          | some s =>
            if complaint.status ≠ s then
              [⟨cid, current_user.id, "status_changed",
                some complaint.status.val, some s.val⟩]
            else []
          | none => []) ++
        (match u.priority with
          | some p =>
            if complaint.priority ≠ p then
              [⟨cid, current_user.id, "priority_changed",
                some complaint.priority.val, some p.val⟩]
            else []
          | none => [])) := by
  refine ⟨?_, ?_, ?_, ?_, ?_, ?_⟩
  · intro data new_id now db' c hok
    unfold create_complaint at hok
    by_cases hne : data.university_id ≠ current_user.university_id
    · rw [if_pos hne] at hok; cases hok
    · rw [if_neg hne] at hok
      simp only [Except.ok.injEq, Prod.mk.injEq] at hok
      obtain ⟨hdb, hc⟩ := hok
      subst hdb hc
      rw [(foldl_notify_fields _ _ _ _).2.2.2.1]
      simp [CRUDActivity.log_activity, CRUDComplaint.create]
  · intro cid a db' hok
    unfold assign_complaint at hok
    by_cases hrole : ¬ (current_user.role = UserRole.admin ∨
        current_user.role = UserRole.staff ∨
        current_user.role = UserRole.super_admin)
    · rw [if_pos hrole] at hok; cases hok
    · rw [if_neg hrole] at hok
      cases hget : CRUDComplaint.get db cid with
      | none => rw [hget] at hok; cases hok
      | some complaint =>
        rw [hget] at hok
        simp only at hok
        by_cases huni : current_user.role ≠ UserRole.super_admin ∧
            complaint.university_id ≠ current_user.university_id
        · rw [if_pos huni] at hok; cases hok
        · rw [if_neg huni] at hok
          simp only [Except.ok.injEq] at hok
          subst hok
          rw [(foldl_notify_fields _ _ _ _).2.2.2.1]
          simp [CRUDActivity.log_activity, CRUDComplaint.assign_users, hget,
            Db.setComplaint]
  · intro cid md new_id now db' m hok
    unfold create_message at hok
    cases hget : CRUDComplaint.get db cid with
    | none => rw [hget] at hok; cases hok
    | some complaint =>
      rw [hget] at hok
      simp only at hok
      by_cases hacc : ¬ can_access_complaint current_user complaint = true
      · rw [if_pos (by simpa using hacc)] at hok; cases hok
      · rw [if_neg (by simpa using hacc)] at hok
        simp only [Except.ok.injEq, Prod.mk.injEq] at hok
        obtain ⟨hdb, -⟩ := hok
        subst hdb
        rw [(foldl_notify_fields _ _ _ _).2.2.2.1]
        simp [CRUDActivity.log_activity, CRUDMessage.create]
  · intro cid fn fs db' hok
    unfold upload_file at hok
    cases hget : CRUDComplaint.get db cid with
    | none => rw [hget] at hok; cases hok
    | some complaint =>
      rw [hget] at hok
      simp only at hok
      by_cases hacc : ¬ can_access_complaint current_user complaint = true
      · rw [if_pos (by simpa using hacc)] at hok; cases hok
      · rw [if_neg (by simpa using hacc)] at hok
        by_cases hext : ¬ (file_extension fn ∈ allowed_extensions)
        · rw [if_pos hext] at hok; cases hok
        · rw [if_neg hext] at hok
          by_cases hsz : fs > 10 * 1024 * 1024
          · rw [if_pos hsz] at hok; cases hok
          · rw [if_neg hsz] at hok
            simp only [Except.ok.injEq] at hok
            subst hok
            simp [CRUDActivity.log_activity]
  · intro cid su now complaint db' c os hget hok
    obtain ⟨c2, heq, -, -⟩ := update_status_shape db cid su.status su.resolution
      (if su.status = ComplaintStatus.resolved then some current_user.id else none)
      now complaint hget
    unfold update_complaint_status at hok
    by_cases hrole : ¬ (current_user.role = UserRole.admin ∨
        current_user.role = UserRole.staff ∨
        current_user.role = UserRole.super_admin)
    · rw [if_pos hrole] at hok; cases hok
    · rw [if_neg hrole, heq] at hok
      simp only [Except.ok.injEq, Prod.mk.injEq] at hok
      obtain ⟨hdb, -, hos⟩ := hok
      subst hdb
      simp [NotificationService.create_notification, CRUDActivity.log_activity,
        Db.setComplaint]
  · intro cid u complaint db' c hget hok
    unfold update_complaint at hok
    rw [hget] at hok
    simp only at hok
    by_cases hacc : ¬ can_access_complaint current_user complaint = true
    · rw [if_pos (by simpa using hacc)] at hok; cases hok
    · rw [if_neg (by simpa using hacc)] at hok
      by_cases hstu : current_user.role = UserRole.student ∧
          (complaint.complainant_id ≠ current_user.id ∨
            complaint.status = ComplaintStatus.resolved)
      · rw [if_pos hstu] at hok; cases hok
      · rw [if_neg hstu] at hok
        simp only [Except.ok.injEq, Prod.mk.injEq] at hok
        obtain ⟨hdb, -⟩ := hok
        subst hdb
        cases hs : u.status with
        | none =>
          cases hp : u.priority with
          | none => simp [hs, hp, Db.setComplaint]
          | some p =>
            by_cases hpc : complaint.priority ≠ p
            · simp [hs, hp, hpc, CRUDActivity.log_activity, Db.setComplaint]
            · simp [hs, hp, hpc, Db.setComplaint]
        | some s =>
          cases hp : u.priority with
          | none =>
            by_cases hsc : complaint.status ≠ s
            · simp [hs, hp, hsc, CRUDActivity.log_activity, Db.setComplaint]
            · simp [hs, hp, hsc, Db.setComplaint]
          | some p =>
            by_cases hsc : complaint.status ≠ s
            · by_cases hpc : complaint.priority ≠ p
              · simp [hs, hp, hsc, hpc, CRUDActivity.log_activity, Db.setComplaint]
              · simp [hs, hp, hsc, hpc, CRUDActivity.log_activity, Db.setComplaint]
            · by_cases hpc : complaint.priority ≠ p
              · simp [hs, hp, hsc, hpc, CRUDActivity.log_activity, Db.setComplaint]
              · simp [hs, hp, hsc, hpc, Db.setComplaint]

/-- C7 witness: a concrete file upload by the complainant appends exactly
one null-valued activity row. -/
theorem mutating_operations_activity_rows_witness :
    (okOf (upload_file { db0 with complaints := [complaint0] }
        { id := 1, role := UserRole.student, university_id := 1 }
        1 "evidence.pdf" 100)).map (fun d => d.activities)
      = some [⟨1, 1, "file_uploaded", none, none⟩] := by
  have h := (mutating_operations_activity_rows
    { db0 with complaints := [complaint0] }
    { id := 1, role := UserRole.student, university_id := 1 }).2.2.2.1
    1 "evidence.pdf" 100
  cases hok : upload_file { db0 with complaints := [complaint0] }
      { id := 1, role := UserRole.student, university_id := 1 }
      1 "evidence.pdf" 100 with
  | error e =>
    have hh : isOk (upload_file { db0 with complaints := [complaint0] }
        { id := 1, role := UserRole.student, university_id := 1 }
        1 "evidence.pdf" 100) = true := by decide
    rw [hok] at hh
    cases hh
  | ok d =>
    have hact := h d hok
    simp [okOf, hact, db0]

/-! ## C8: internal-message visibility -/

/-- A read with `include_internal = false` never returns an internal
message. -/
theorem mem_get_by_complaint_not_internal {db : Db} {cid : Nat} {m : Message}
    (h : m ∈ CRUDMessage.get_by_complaint db cid false) : m.is_internal = false := by
  unfold CRUDMessage.get_by_complaint at h
  simp only [Bool.not_false, if_pos] at h
  rw [(List.mergeSort_perm _ _).mem_iff] at h
  have := (List.mem_filter.mp h).2
  simpa using this

/-- C8: whenever a message read succeeds and returns an internal message,
the caller requested `include_internal` AND holds an admin/staff/super_admin
role; hence a caller outside those roles never receives an internal message,
whatever flag they pass and independently of how access was granted. -/
theorem get_messages_internal_visibility
    (db : Db) (current_user : User) (cid : Nat) (include_internal : Bool)
    (msgs : List Message)
    (hok : get_messages db current_user cid include_internal = .ok msgs) :
    ∀ m ∈ msgs, m.is_internal = true →
      include_internal = true ∧
        (current_user.role = UserRole.admin ∨ current_user.role = UserRole.staff ∨
         current_user.role = UserRole.super_admin) := by
  intro m hm hint
  unfold get_messages at hok
  cases hget : CRUDComplaint.get db cid with
  | none => rw [hget] at hok; cases hok
  | some complaint =>
    rw [hget] at hok
    simp only at hok
    by_cases hacc : ¬ can_access_complaint current_user complaint = true
    · rw [if_pos (by simpa using hacc)] at hok; cases hok
    · rw [if_neg (by simpa using hacc)] at hok
      simp only [Except.ok.injEq] at hok
      subst hok
      by_cases hcond : include_internal = true ∧
          ¬ (current_user.role = UserRole.admin ∨
             current_user.role = UserRole.staff ∨
             current_user.role = UserRole.super_admin)
      · rw [if_pos hcond] at hm
        have := mem_get_by_complaint_not_internal hm
        rw [hint] at this
        cases this
      · rw [if_neg hcond] at hm
        cases hii : include_internal with
        | false =>
          rw [hii] at hm
          have := mem_get_by_complaint_not_internal hm
          rw [hint] at this
          cases this
        | true =>
          refine ⟨rfl, ?_⟩
          by_contra htier
          exact hcond ⟨hii, htier⟩

/-- An internal message used in the C8 scenario. -/
def msgInternal0 : Message :=
  { id := 1, content := "note", complaint_id := 1, sender_id := 9,
    is_internal := true, created_at := 5 }

/-- C8 witness: the student complainant requesting `include_internal = true`
still does not receive the internal message on their own complaint. -/
theorem get_messages_internal_visibility_witness :
    msgInternal0 ∉
      ((okOf (get_messages
          { db0 with complaints := [complaint0], messages := [msgInternal0] }
          { id := 1, role := UserRole.student, university_id := 1 }
          1 true)).getD []) := by
  intro hmem
  have h := get_messages_internal_visibility
    { db0 with complaints := [complaint0], messages := [msgInternal0] }
    { id := 1, role := UserRole.student, university_id := 1 } 1 true
    ((okOf (get_messages
        { db0 with complaints := [complaint0], messages := [msgInternal0] }
        { id := 1, role := UserRole.student, university_id := 1 }
        1 true)).getD []) (by rfl) msgInternal0 hmem rfl
  exact absurd h.2 (by decide)

/-! ## C9: statistics on the empty tenant and zero-filled breakdowns -/

/-- Every category is iterated over. -/
theorem mem_all_categories (c : ComplaintCategory) :
    c ∈ ComplaintCategory.all := by
  cases c <;> simp [ComplaintCategory.all]

/-- Every status is iterated over. -/
theorem mem_all_statuses (s : ComplaintStatus) :
    s ∈ ComplaintStatus.all := by
  cases s <;> simp [ComplaintStatus.all]

/-- C9: when the filtered complaint set is empty, every count is 0 and both
averages are the number 0 (no error, no undefined value); and for every
complaint set, each enum member appears as a key of the corresponding
breakdown map, carrying the count of matching complaints (hence 0 for
members with no complaints). -/
theorem get_statistics_empty_and_breakdown
    (db : Db) (university_id : Nat) (department_id : Option Nat)
    (date_from date_to : Option Nat) (now : Nat) :
    (statsFilter db university_id department_id date_from date_to = [] →
      (CRUDComplaint.get_statistics db university_id department_id
          date_from date_to now).total_complaints = 0 ∧
      (CRUDComplaint.get_statistics db university_id department_id
          date_from date_to now).pending_complaints = 0 ∧
      (CRUDComplaint.get_statistics db university_id department_id
          date_from date_to now).resolved_complaints = 0 ∧
      (CRUDComplaint.get_statistics db university_id department_id
          date_from date_to now).overdue_complaints = 0 ∧
      (CRUDComplaint.get_statistics db university_id department_id
          date_from date_to now).average_resolution_time = 0 ∧
      (CRUDComplaint.get_statistics db university_id department_id
          date_from date_to now).satisfaction_score = 0) ∧
    (∀ cat, (cat, ((statsFilter db university_id department_id date_from
        date_to).filter (fun c => c.category = cat)).length) ∈
      (CRUDComplaint.get_statistics db university_id department_id
        date_from date_to now).complaints_by_category) ∧
    (∀ s, (s, ((statsFilter db university_id department_id date_from
        date_to).filter (fun c => c.status = s)).length) ∈
      (CRUDComplaint.get_statistics db university_id department_id
        date_from date_to now).complaints_by_status) := by
  refine ⟨?_, ?_, ?_⟩
  · intro hemp
    unfold CRUDComplaint.get_statistics
    rw [hemp]
    simp
  · intro cat
    unfold CRUDComplaint.get_statistics
    simp only
    exact List.mem_map.mpr ⟨cat, mem_all_categories cat, rfl⟩
  · intro s
    unfold CRUDComplaint.get_statistics
    simp only
    exact List.mem_map.mpr ⟨s, mem_all_statuses s, rfl⟩

/-- C9 witness: on the empty database every count and both averages are
zero, and the `housing` category appears zero-filled in the breakdown. -/
theorem get_statistics_empty_witness :
    (CRUDComplaint.get_statistics db0 1 none none none 0).total_complaints = 0 ∧
    (CRUDComplaint.get_statistics db0 1 none none none 0).average_resolution_time = 0 ∧
    (CRUDComplaint.get_statistics db0 1 none none none 0).satisfaction_score = 0 ∧
    (ComplaintCategory.housing, 0) ∈
      (CRUDComplaint.get_statistics db0 1 none none none 0).complaints_by_category := by
  have h := get_statistics_empty_and_breakdown db0 1 none none none 0
  have h1 := h.1 (by decide)
  have h2 := h.2.1 ComplaintCategory.housing
  have h3 : ((statsFilter db0 1 none none none).filter
      (fun c => c.category = ComplaintCategory.housing)).length = 0 := by decide
  rw [h3] at h2
  exact ⟨h1.1, h1.2.2.2.2.1, h1.2.2.2.2.2, h2⟩

/-! ## C10: marking notifications as read -/

/-- Decomposition of `markFirst` around the row `find?` locates: everything
before it is untouched and fails the predicate, everything after it is
untouched. -/
theorem markFirst_decomp {α : Type} (p : α → Bool) (f : α → α) (l : List α)
    (n : α) (h : l.find? p = some n) :
    ∃ l1 l2, l = l1 ++ n :: l2 ∧ (∀ x ∈ l1, ¬ p x = true) ∧
      markFirst p f l = l1 ++ f n :: l2 := by
  induction l with
  | nil => simp at h
  | cons a l ih =>
    cases hp : p a with
    | true =>
      rw [List.find?_cons_of_pos _ hp] at h
      have ha : a = n := by injection h
      subst ha
      exact ⟨[], l, rfl, by simp, by simp [markFirst, hp]⟩
    | false =>
      rw [List.find?_cons_of_neg _ (by simp [hp])] at h
      obtain ⟨l1, l2, hl, hnp, hm⟩ := ih h
      refine ⟨a :: l1, l2, by rw [hl]; rfl, ?_, by simp [markFirst, hp, hm]⟩
      intro x hx
      rcases List.mem_cons.mp hx with hx | hx
      · subst hx; simp [hp]
      · exact hnp x hx

/-- C10: `mark_as_read` touches a notification only when one exists with the
given id AND the caller as owner — when every notification with that id
belongs to someone else (or none exists) the database is returned unchanged
and the route answers not-found; on success the result is the caller's own
row, only its `is_read` flag changes, every other table and every other
notification row is untouched, and the route succeeds with that state. -/
theorem mark_as_read_owner_only (db : Db) (current_user : User)
    (notification_id : Nat) :
    ((∀ n ∈ db.notifications,
        ¬ (n.id = notification_id ∧ n.user_id = current_user.id)) →
      CRUDNotification.mark_as_read db notification_id current_user.id
          = (db, none) ∧
      mark_notification_read db current_user notification_id
          = .error .notFound) ∧
    (∀ db' n, CRUDNotification.mark_as_read db notification_id current_user.id
        = (db', some n) →
      n.user_id = current_user.id ∧ n.id = notification_id ∧ n.is_read = true ∧
      db'.users = db.users ∧ db'.complaints = db.complaints ∧
      db'.messages = db.messages ∧ db'.activities = db.activities ∧
      db'.attachments = db.attachments ∧
      (∃ l1 m l2, db.notifications = l1 ++ m :: l2 ∧
        m.id = notification_id ∧ m.user_id = current_user.id ∧
        n = { m with is_read := true } ∧
        (∀ x ∈ l1, ¬ (x.id = notification_id ∧ x.user_id = current_user.id)) ∧
        db'.notifications = l1 ++ { m with is_read := true } :: l2) ∧
      mark_notification_read db current_user notification_id = .ok db') := by
  constructor
  · intro hnone
    have hfind : db.notifications.find?
        (fun n => n.id = notification_id ∧ n.user_id = current_user.id) = none := by
      rw [List.find?_eq_none]
      intro x hx
      simpa using hnone x hx
    have hcrud : CRUDNotification.mark_as_read db notification_id current_user.id
        = (db, none) := by
      unfold CRUDNotification.mark_as_read
      rw [hfind]
    refine ⟨hcrud, ?_⟩
    unfold mark_notification_read
    rw [hcrud]
  · intro db' n hok
    unfold CRUDNotification.mark_as_read at hok
    cases hfind : db.notifications.find?
        (fun n => n.id = notification_id ∧ n.user_id = current_user.id) with
    | none => rw [hfind] at hok; simp at hok
    | some n0 =>
      rw [hfind] at hok
      simp only [Prod.mk.injEq, Option.some.injEq] at hok
      obtain ⟨hdb, hn⟩ := hok
      have hp := List.find?_some hfind
      simp only [decide_eq_true_eq] at hp
      obtain ⟨l1, l2, hl, hnp, hm⟩ := markFirst_decomp _ _ _ _ hfind
      subst hdb
      refine ⟨by rw [← hn]; exact hp.2, by rw [← hn]; exact hp.1, by rw [← hn],
        rfl, rfl, rfl, rfl, rfl, ⟨l1, n0, l2, hl, hp.1, hp.2, hn.symm, ?_, by simpa using hm⟩, ?_⟩
      · intro x hx
        have := hnp x hx
        simpa using this
      · unfold mark_notification_read CRUDNotification.mark_as_read
        rw [hfind]

/-- C10 witness: notification 1 belongs to user 2; user 1's attempt to mark
it read is answered not-found and the database value is unchanged. -/
theorem mark_as_read_owner_only_witness :
    (CRUDNotification.mark_as_read
        { db0 with notifications :=
            [{ id := 1, user_id := 2, complaint_id := none, is_read := false }] }
        1 1
      = ({ db0 with notifications :=
            [{ id := 1, user_id := 2, complaint_id := none, is_read := false }] },
          none)) ∧
    (mark_notification_read
        { db0 with notifications :=
            [{ id := 1, user_id := 2, complaint_id := none, is_read := false }] }
        { id := 1, role := UserRole.student, university_id := 1 } 1
      = .error .notFound) := by
  exact (mark_as_read_owner_only
    { db0 with notifications :=
        [{ id := 1, user_id := 2, complaint_id := none, is_read := false }] }
    { id := 1, role := UserRole.student, university_id := 1 } 1).1 (by decide)
